import Mathlib

/-!
Verification of the PBS/Torque execution plugin
(`nipype/pipeline/plugins/pbs.py`, class `PBSPlugin`).

The Python string primitives used by the plugin (`in`, `str.split`,
`str.join`, slicing, `os.path.dirname`, `os.path.splitext`,
`str.replace`) are embedded as executable functions over `List Char`,
and the two methods under study — `_is_pending` and `_submit_batchtask`
— are embedded on top of them.  The external command executor
(`CommandLine(...).run()`) is modelled as a function from the attempt
index to either a raised exception (`Except.error` carrying the message)
or a captured result (`Except.ok` carrying stdout/stderr); the ambient
interface-logger level and the pending-task registry are threaded
explicitly.
-/

set_option maxRecDepth 4000

/-- Embeds Python list-of-chars test: `sub` is a leading segment of `s`. -/
def startsWithL : List Char → List Char → Bool
  | [], _ => true
  | _ :: _, [] => false
  | a :: as, b :: bs => (a == b) && startsWithL as bs

/-- Embeds the Python containment operator `sub in s` on characters. -/
def containsL (sub : List Char) : List Char → Bool
  | [] => startsWithL sub []
  | b :: t => startsWithL sub (b :: t) || containsL sub t

/-- Python `sub in s` for strings. -/
def pyIn (sub s : String) : Bool := containsL sub.data s.data

/-- Python `s.startswith(pre)`, used only to state facts about built command lines. -/
def startsWithS (s pre : String) : Bool := startsWithL pre.data s.data

/-- Python `s.split(".")` on the character list (separator is the single dot). -/
def pySplitDotL : List Char → List (List Char)
  | [] => [[]]
  | a :: t =>
    if a = '.' then [] :: pySplitDotL t
    else
      match pySplitDotL t with
      | [] => [[a]]
      | h :: rest => (a :: h) :: rest

/-- Python `s.split(".")` for strings. -/
def pySplitDot (s : String) : List String := (pySplitDotL s.data).map String.mk

/-- Python `".".join(items)`. -/
def joinDot : List String → String
  | [] => ""
  | [a] => a
  | a :: rest => a ++ "." ++ joinDot rest

/-- Python slicing `s[0:n]` (the first `n` characters). -/
def pySlice0 (s : String) (n : Nat) : String := String.mk (s.data.take n)

/-- Python `s.rfind(c)` as an optional index (last occurrence of `c`). -/
def rfindIdx (c : Char) : List Char → Option Nat
  | [] => none
  | a :: t =>
    match rfindIdx c t with
    | some i => some (i + 1)
    | none => if a = c then some 0 else none

/-- Embeds `os.path.dirname` (posix): everything before the final slash,
with trailing slashes stripped unless the head is all slashes. -/
def pyDirname (p : String) : String :=
  let s := p.data
  let i := match rfindIdx '/' s with
    | none => 0
    | some j => j + 1
  let head := s.take i
  let head :=
    if head ≠ [] ∧ ¬ head.all (fun c => c = '/') then
      (head.reverse.dropWhile (fun c => c = '/')).reverse
    else head
  String.mk head

/-- Embeds `os.path.splitext(p)[0]` (posix): the path up to the last dot
of the final component, provided that component is not made of leading
dots only. -/
def pySplitextRoot (p : String) : String :=
  let s := p.data
  let sepIdx : Int := match rfindIdx '/' s with
    | none => -1
    | some i => (i : Int)
  let dotIdx : Int := match rfindIdx '.' s with
    | none => -1
    | some i => (i : Int)
  if sepIdx < dotIdx then
    let nameStart := (sepIdx + 1).toNat
    let fname := (s.drop nameStart).take (dotIdx.toNat - nameStart)
    if fname.any (fun c => c ≠ '.') then String.mk (s.take dotIdx.toNat) else p
  else p

/-- The left-to-right scan of Python `s.replace(old, new)`.  The fuel is
an upper bound on the number of scan steps; every step either keeps one
character or replaces a non-empty occurrence, so the input length always
suffices and the fuel-exhaustion branch is unreachable. -/
def pyReplaceGo (old new : List Char) : Nat → List Char → List Char
  | _, [] => []
  | 0, l => l
  | fuel + 1, a :: t =>
    if old ≠ [] ∧ startsWithL old (a :: t) then
      new ++ pyReplaceGo old new fuel ((a :: t).drop old.length)
    else
      a :: pyReplaceGo old new fuel t

/-- Embeds Python `s.replace(old, new)` (all non-overlapping occurrences,
scanned left to right). -/
def pyReplace (old new l : List Char) : List Char := pyReplaceGo old new l.length l

/-- Embeds `PBSPlugin._is_pending`, as a classification of the captured
`qstat -f taskid` stdout/stderr pair (the command invocation itself is
run with `ignore_exception=True`, so only the text matters). -/
def is_pending (stdout stderr : String) : Bool :=
  if pyIn "Job has finished" stderr || pyIn "job_state = C" stdout then false
  else !(pyIn "Unknown Job Id" stderr)

/-- The merging of qsub arguments in `_submit_batchtask`: start from the
plugin-level `self._qsub_args` (if truthy), replace or append the
node-level `plugin_args["qsub_args"]`, then default `-o` and `-e` to the
script directory when absent. -/
def mergedQsubArgs (self_qsub_args : String) (node_qsub_args : Option String)
    (overwrite : Bool) (path : String) : String :=
  let qsubargs := ""
  let qsubargs := if self_qsub_args ≠ "" then self_qsub_args else qsubargs
  let qsubargs :=
    match node_qsub_args with
    | none => qsubargs
    | some a => if overwrite then a else qsubargs ++ " " ++ a
  let qsubargs := if pyIn "-o" qsubargs then qsubargs else qsubargs ++ " -o " ++ path
  if pyIn "-e" qsubargs then qsubargs else qsubargs ++ " -e " ++ path

/-- The job-name construction in `_submit_batchtask`: join
`LOGNAME`, `node._hierarchy` (when truthy) and `node._id` with dots,
split on dots, reverse, rejoin, and keep the first
`self._max_jobname_len` characters. -/
def buildJobName (logname hierarchy node_id : String) (max_jobname_len : Nat) : String :=
  let jobname :=
    if hierarchy ≠ "" then joinDot [logname, hierarchy, node_id]
    else joinDot [logname, node_id]
  let jobnameitems := pySplitDot jobname
  let jobnameitems := jobnameitems.reverse
  let jobname := joinDot jobnameitems
  pySlice0 jobname max_jobname_len

/-- The hard-coded interpreter path appearing in the HEAD side of the
unresolved merge conflict in `_submit_batchtask`. -/
def pythonBin : String := "/home/predatt/giaald/.conda/envs/giacomo/bin/python"

/-- The `py_filename` computed on the HEAD side of the merge conflict:
strip the extension, delete every `batchscript_`, append `.py`. -/
def py_filename (scriptfile : String) : String :=
  String.mk (pyReplace "batchscript_".data "".data (pySplitextRoot scriptfile).data) ++ ".py"

/-- Embeds `cmd.inputs.args` on the HEAD side of the merge conflict
(lines 93-98 of pbs.py). -/
def args_head (scriptfile qsubargs jobname : String) : String :=
  " \"" ++ pythonBin ++ " " ++ py_filename scriptfile ++ "\" | qsub "
    ++ qsubargs ++ " -N " ++ jobname

/-- Embeds `cmd.inputs.args` on the other (merged-in) side of the merge conflict
(line 100 of pbs.py). -/
def args_merged (scriptfile qsubargs jobname : String) : String :=
  qsubargs ++ " -N " ++ jobname ++ " " ++ scriptfile

/-- The full command line of the HEAD side: the executable is
`CommandLine('echo', ...)`, so the line starts with `echo`. -/
def cmdline_head (scriptfile qsubargs jobname : String) : String :=
  "echo" ++ " " ++ args_head scriptfile qsubargs jobname

/-- The full command line of the merged-in side: the executable is
likewise `CommandLine('echo', ...)`. -/
def cmdline_merged (scriptfile qsubargs jobname : String) : String :=
  "echo" ++ " " ++ args_merged scriptfile qsubargs jobname

/-- The captured output of one `cmd.run()` that returned normally. -/
structure CmdResult where
  stdout : String
  stderr : String
deriving DecidableEq

/-- Is an executor outcome a normal return? -/
def exceptIsOk : Except String CmdResult → Bool
  | Except.ok _ => true
  | Except.error _ => false

/-- Python `result.runtime.stdout.split(".")[0]`: the text before the
first dot (total — `split` always yields at least one field). -/
def pyFirstField (s : String) : String := String.mk ((pySplitDotL s.data).headD [])

/-- Assignment `d[k] = v` on a Python dict modelled as an association list. -/
def dictInsert : List (String × String) → String → String → List (String × String)
  | [], k, v => [(k, v)]
  | (k0, v0) :: t, k, v =>
    if k0 = k then (k, v) :: t else (k0, v0) :: dictInsert t k v

/-- Lookup `d.get(k)` on the association-list dict. -/
def dictLookup : List (String × String) → String → Option String
  | [], _ => none
  | (k0, v0) :: t, k => if k0 = k then some v0 else dictLookup t k

/-- The plugin configuration relevant to `_submit_batchtask`:
`self._qsub_args`, `self._retry_timeout`, `self._max_tries`,
`self._max_jobname_len` and the `LOGNAME` environment value. -/
structure SubmitConfig where
  qsub_args : String
  retry_timeout : Nat
  max_tries : Nat
  max_jobname_len : Nat
  logname : String
deriving DecidableEq

/-- The node fields read by `_submit_batchtask`: `_hierarchy`, `_id`,
`output_dir()` and the optional `plugin_args` entries. -/
structure NodeModel where
  hierarchy : String
  node_id : String
  out_dir : String
  plugin_qsub_args : Option String
  plugin_overwrite : Bool
deriving DecidableEq

/-- The observable outcome of a successful `_submit_batchtask` call:
the returned task id, the pending registry afterwards, the restored
logger level, the log of `sleep` calls, the number of `cmd.run()`
executions, and the job name / merged qsub arguments that were built. -/
structure SubmitOk where
  taskid : String
  pending : List (String × String)
  level : Int
  sleeps : List Nat
  execs : Nat
  jobname : String
  qsubargs : String
deriving DecidableEq

/-- The observable outcome of a `_submit_batchtask` call that raised
`RuntimeError`. -/
structure SubmitFail where
  errmsg : String
  pending : List (String × String)
  level : Int
  sleeps : List Nat
  execs : Nat
  jobname : String
  qsubargs : String
deriving DecidableEq

/-- The `while True` retry loop of `_submit_batchtask`.  `fuel` is
`self._max_tries - tries` (so the Python guard `tries < self._max_tries`
is `fuel > 0`); `idx` numbers the `cmd.run()` executions; `sleeps`
accumulates the `sleep(self._retry_timeout)` calls and `execs` counts
the executions performed so far. -/
def loopGo (attempt : Nat → Except String CmdResult) (rt : Nat) :
    Nat → Nat → List Nat → Nat →
      Except (String × List Nat × Nat) (CmdResult × List Nat × Nat)
  | fuel, idx, sleeps, execs =>
    match attempt idx with
    | Except.ok r => Except.ok (r, sleeps, execs + 1)
    | Except.error e =>
      match fuel with
      | 0 => Except.error (e, sleeps, execs + 1)
      | fuel' + 1 => loopGo attempt rt fuel' (idx + 1) (sleeps ++ [rt]) (execs + 1)

/-- Embeds `PBSPlugin._submit_batchtask`.  The executor is the function
`attempt` from execution index to outcome; `pending0` is the registry
and `level0` the interface-logger level before the call.  On success the
parsed task id is inserted into the registry and the level is restored;
on exhausted retries a `RuntimeError` carrying the node id and the last
underlying error is raised, the registry is left untouched and the level
is likewise restored. -/
def submit_batchtask (cfg : SubmitConfig) (node : NodeModel) (scriptfile : String)
    (attempt : Nat → Except String CmdResult)
    (pending0 : List (String × String)) (level0 : Int) :
    Except SubmitFail SubmitOk :=
  let path := pyDirname scriptfile
  let qsubargs := mergedQsubArgs cfg.qsub_args node.plugin_qsub_args node.plugin_overwrite path
  let jobname := buildJobName cfg.logname node.hierarchy node.node_id cfg.max_jobname_len
  match loopGo attempt cfg.retry_timeout cfg.max_tries 0 [] 0 with
  | Except.error (e, sleeps, execs) =>
    Except.error
      { errmsg := "Could not submit pbs task for node " ++ node.node_id ++ "\n" ++ e,
        pending := pending0, level := level0, sleeps := sleeps, execs := execs,
        jobname := jobname, qsubargs := qsubargs }
  | Except.ok (r, sleeps, execs) =>
    let taskid := pyFirstField r.stdout
    Except.ok
      { taskid := taskid, pending := dictInsert pending0 taskid node.out_dir,
        level := level0, sleeps := sleeps, execs := execs,
        jobname := jobname, qsubargs := qsubargs }

/-- The logger level observable after the call, on either exit path. -/
def submitLevel : Except SubmitFail SubmitOk → Int
  | Except.error f => f.level
  | Except.ok o => o.level

/-- The number of `cmd.run()` executions, on either exit path. -/
def submitExecs : Except SubmitFail SubmitOk → Nat
  | Except.error f => f.execs
  | Except.ok o => o.execs

/-- The `sleep` calls performed, on either exit path. -/
def submitSleeps : Except SubmitFail SubmitOk → List Nat
  | Except.error f => f.sleeps
  | Except.ok o => o.sleeps

/-- The pending registry after the call, on either exit path. -/
def submitPending : Except SubmitFail SubmitOk → List (String × String)
  | Except.error f => f.pending
  | Except.ok o => o.pending

/-- Did the call raise? -/
def submitIsErr : Except SubmitFail SubmitOk → Bool
  | Except.error _ => true
  | Except.ok _ => false

/-- The `RuntimeError` message, when the call raised. -/
def submitErrmsg : Except SubmitFail SubmitOk → Option String
  | Except.error f => some f.errmsg
  | Except.ok _ => none

/-- The returned task id, when the call returned. -/
def submitTaskid : Except SubmitFail SubmitOk → Option String
  | Except.error _ => none
  | Except.ok o => some o.taskid

/-- Example configuration with the default plugin settings
(`retry_timeout = 2`, `max_tries = 2`, `max_jobname_len = 15`). -/
def cfgEx : SubmitConfig :=
  { qsub_args := "", retry_timeout := 2, max_tries := 2,
    max_jobname_len := 15, logname := "alice" }

/-- Example node matching the end-to-end scenario of the spec. -/
def nodeEx : NodeModel :=
  { hierarchy := "wf.branch", node_id := "node1", out_dir := "/out/node1",
    plugin_qsub_args := none, plugin_overwrite := false }

/-- Example generated script path. -/
def scriptEx : String := "/wd/batchscript_node1.sh"

/-- An executor whose every execution raises. -/
def attemptFail : Nat → Except String CmdResult := fun _ => Except.error "boom"

/-- An executor whose every execution returns a well-formed reply. -/
def attemptOk : Nat → Except String CmdResult :=
  fun _ => Except.ok { stdout := "9001.master", stderr := "warnings" }

/-- An executor that raises on the first execution and then returns a
well-formed reply. -/
def attempt1Fail : Nat → Except String CmdResult :=
  fun i => if i = 0 then Except.error "boom"
           else Except.ok { stdout := "12345.pbs01", stderr := "" }

/-- An executor that returns an empty reply (no parsable task id). -/
def attemptEmpty : Nat → Except String CmdResult :=
  fun _ => Except.ok { stdout := "", stderr := "" }

/-- Every Python `split` result has at least one field. -/
lemma splitDotL_ne_nil (l : List Char) : pySplitDotL l ≠ [] := by
  cases l with
  | nil => simp [pySplitDotL]
  | cons a t =>
    simp only [pySplitDotL]
    split
    · simp
    · split <;> simp

/-- The first field of a Python dot-split is the longest dot-free leading
segment. -/
lemma headD_splitDotL (l : List Char) :
    (pySplitDotL l).headD [] = l.takeWhile (fun c => c != '.') := by
  induction l with
  | nil => simp [pySplitDotL]
  | cons a t ih =>
    simp only [pySplitDotL]
    by_cases h : a = '.'
    · subst h
      simp [List.takeWhile_cons]
    · cases hs : pySplitDotL t with
      | nil => exact absurd hs (splitDotL_ne_nil t)
      | cons b rest =>
        rw [hs] at ih
        simp only [List.headD_cons] at ih
        simp [h, hs, List.takeWhile_cons, ih]

/-- If the single character `c` does not occur in `l`, the `(· != c)`
take-while keeps all of `l`. -/
lemma takeWhile_of_not_contains (c : Char) (l : List Char)
    (h : containsL [c] l = false) : l.takeWhile (fun x => x != c) = l := by
  induction l with
  | nil => simp
  | cons a t ih =>
    simp only [containsL, startsWithL, Bool.and_true, Bool.or_eq_false_iff] at h
    have hca : (c == a) = false := by
      cases hh : (c == a) with
      | false => rfl
      | true => rw [hh] at h; simp at h
    have hac : (a != c) = true := by
      simp only [bne_iff_ne]
      intro he
      rw [he] at hca
      simp at hca
    simp only [List.takeWhile_cons, hac, if_true]
    rw [ih h.2]

/-- Joining a two-element list with dots. -/
lemma joinDot_two (a b : String) : joinDot [a, b] = a ++ "." ++ b := rfl

/-- Joining a three-element list with dots. -/
lemma joinDot_three (a b c : String) : joinDot [a, b, c] = a ++ "." ++ b ++ "." ++ c := by
  show a ++ "." ++ joinDot [b, c] = a ++ "." ++ b ++ "." ++ c
  rw [joinDot_two]
  simp [String.append_assoc]

/-- Looking up the just-assigned key of a dict yields the new value. -/
lemma dictLookup_insert_self (d : List (String × String)) (k v : String) :
    dictLookup (dictInsert d k v) k = some v := by
  induction d with
  | nil => simp [dictInsert, dictLookup]
  | cons p t ih =>
    obtain ⟨k0, v0⟩ := p
    simp only [dictInsert]
    by_cases h : k0 = k
    · simp [h, dictLookup]
    · simp [h, dictLookup, ih]

/-- Looking up any other key after a dict assignment is unchanged. -/
lemma dictLookup_insert_ne (d : List (String × String)) (k v k' : String)
    (h : k' ≠ k) : dictLookup (dictInsert d k v) k' = dictLookup d k' := by
  induction d with
  | nil =>
    simp only [dictInsert, dictLookup]
    rw [if_neg (fun he => h he.symm)]
  | cons p t ih =>
    obtain ⟨k0, v0⟩ := p
    simp only [dictInsert]
    by_cases h0 : k0 = k
    · subst h0
      simp only [if_pos rfl, dictLookup]
      rw [if_neg (fun he => h he.symm), if_neg (fun he => h he.symm)]
    · simp only [if_neg h0, dictLookup]
      by_cases h1 : k0 = k'
      · simp [h1]
      · simp [h1, ih]

/-- If the executor succeeds on execution `idx + k` after `k` failures,
the retry loop returns that result, having slept once per failure and
executed `k + 1` times (provided `k` does not exceed the remaining fuel). -/
lemma loopGo_ok (attempt : Nat → Except String CmdResult) (rt : Nat) (r : CmdResult) :
    ∀ (k fuel idx : Nat) (sleeps : List Nat) (execs : Nat), k ≤ fuel →
      (∀ i, i < k → exceptIsOk (attempt (idx + i)) = false) →
      attempt (idx + k) = Except.ok r →
      loopGo attempt rt fuel idx sleeps execs =
        Except.ok (r, sleeps ++ List.replicate k rt, execs + k + 1) := by
  intro k
  induction k with
  | zero =>
    intro fuel idx sleeps execs _ _ hok
    rw [Nat.add_zero] at hok
    unfold loopGo
    rw [hok]
    simp
  | succ k ih =>
    intro fuel idx sleeps execs hk hfail hok
    have h0 : exceptIsOk (attempt idx) = false := by
      have := hfail 0 (Nat.succ_pos k)
      rwa [Nat.add_zero] at this
    cases he : attempt idx with
    | ok r0 => rw [he] at h0; simp [exceptIsOk] at h0
    | error e =>
      cases fuel with
      | zero => exact absurd hk (by omega)
      | succ fuel' =>
        unfold loopGo
        rw [he]
        have hfail' : ∀ i, i < k → exceptIsOk (attempt (idx + 1 + i)) = false := by
          intro i hi
          have := hfail (i + 1) (by omega)
          rwa [show idx + (i + 1) = idx + 1 + i by omega] at this
        have hok' : attempt (idx + 1 + k) = Except.ok r := by
          rwa [show idx + 1 + k = idx + (k + 1) by omega]
        dsimp only
        rw [ih fuel' (idx + 1) (sleeps ++ [rt]) (execs + 1) (by omega) hfail' hok']
        have h1 : (sleeps ++ [rt]) ++ List.replicate k rt =
            sleeps ++ List.replicate (k + 1) rt := by
          rw [List.append_assoc, List.singleton_append, ← List.replicate_succ]
        have h2 : execs + 1 + k + 1 = execs + (k + 1) + 1 := by omega
        rw [h1, h2]

/-- If the executor fails on every execution, the retry loop exhausts its
fuel, sleeps once per unit of fuel, executes `fuel + 1` times and
surfaces the error of the last execution. -/
lemma loopGo_all_fail (attempt : Nat → Except String CmdResult)
    (emsg : Nat → String) (rt : Nat)
    (hf : ∀ i, attempt i = Except.error (emsg i)) :
    ∀ (fuel idx : Nat) (sleeps : List Nat) (execs : Nat),
      loopGo attempt rt fuel idx sleeps execs =
        Except.error (emsg (idx + fuel), sleeps ++ List.replicate fuel rt,
          execs + fuel + 1) := by
  intro fuel
  induction fuel with
  | zero =>
    intro idx sleeps execs
    unfold loopGo
    rw [hf idx]
    simp
  | succ fuel' ih =>
    intro idx sleeps execs
    unfold loopGo
    rw [hf idx]
    dsimp only
    rw [ih (idx + 1) (sleeps ++ [rt]) (execs + 1)]
    have h1 : (sleeps ++ [rt]) ++ List.replicate fuel' rt =
        sleeps ++ List.replicate (fuel' + 1) rt := by
      rw [List.append_assoc, List.singleton_append, ← List.replicate_succ]
    have h2 : execs + 1 + fuel' + 1 = execs + (fuel' + 1) + 1 := by omega
    have h3 : idx + 1 + fuel' = idx + (fuel' + 1) := by omega
    rw [h1, h2, h3]

/-- Embeds the fact that a `_submit_batchtask` call whose first execution returns the reply
`⟨stdout, stderr⟩` succeeds immediately: no sleeps, one execution, the
text before the first dot of stdout as the task id, and that id —
whatever it is — inserted in the registry. -/
lemma submit_firstOk (cfg : SubmitConfig) (node : NodeModel) (scriptfile : String)
    (pending0 : List (String × String)) (level0 : Int) (stdout stderr : String) :
    submit_batchtask cfg node scriptfile
        (fun _ => Except.ok { stdout := stdout, stderr := stderr }) pending0 level0 =
      Except.ok
        { taskid := pyFirstField stdout,
          pending := dictInsert pending0 (pyFirstField stdout) node.out_dir,
          level := level0, sleeps := [], execs := 1,
          jobname := buildJobName cfg.logname node.hierarchy node.node_id cfg.max_jobname_len,
          qsubargs := mergedQsubArgs cfg.qsub_args node.plugin_qsub_args
            node.plugin_overwrite (pyDirname scriptfile) } := by
  unfold submit_batchtask
  have h : loopGo (fun _ => Except.ok { stdout := stdout, stderr := stderr })
      cfg.retry_timeout cfg.max_tries 0 [] 0 =
      Except.ok ({ stdout := stdout, stderr := stderr }, [], 1) := by
    unfold loopGo
    rfl
  rw [h]

/-- Claim C1: `_is_pending` classifies a stdout/stderr pair as finished
(returns `false`) exactly when stdout contains `"job_state = C"`, or
stderr contains `"Job has finished"`, or stderr contains
`"Unknown Job Id"`; on every other pair it returns `true` (pending). -/
theorem claim_C1 (stdout stderr : String) :
    is_pending stdout stderr = false ↔
      (pyIn "job_state = C" stdout || pyIn "Job has finished" stderr
        || pyIn "Unknown Job Id" stderr) = true := by
  unfold is_pending
  cases h1 : pyIn "Job has finished" stderr <;>
    cases h2 : pyIn "job_state = C" stdout <;>
      cases h3 : pyIn "Unknown Job Id" stderr <;> simp [h1, h2, h3]

/-- Claim C4: the job name is built by dot-joining the user name, the
(possibly empty) hierarchy and the leaf id, splitting on dots, reversing,
rejoining, and truncating to the first `max_jobname_len` characters; on
user `alice`, hierarchy `wf.branch`, leaf `node1` and bound 15 this
yields `node1.branch.wf`. -/
theorem claim_C4 (u hier leaf : String) (n : Nat) :
    buildJobName u hier leaf n =
      pySlice0 (joinDot (pySplitDot
        (if hier ≠ "" then u ++ "." ++ hier ++ "." ++ leaf else u ++ "." ++ leaf)).reverse) n
    ∧ buildJobName "alice" "wf.branch" "node1" 15 = "node1.branch.wf" := by
  constructor
  · unfold buildJobName
    by_cases h : hier = ""
    · simp [h, joinDot_two]
    · simp [h, joinDot_three]
  · decide

/-- Claim C9: for every user name, hierarchy, leaf id and non-negative
configured maximum, the built job name has length at most the maximum. -/
theorem claim_C9 (logname hierarchy node_id : String) (n : Nat) :
    (buildJobName logname hierarchy node_id n).length ≤ n := by
  unfold buildJobName pySlice0
  show (List.take n _).length ≤ n
  rw [List.length_take]
  omega

/-- Claim C10: task-id extraction is total: the task id is the segment of
stdout before the first dot; when stdout has no dot — the empty string
included — all of stdout is the task id, and whatever string results is
registered in the pending registry against the node's output directory. -/
theorem claim_C10 (s : String) :
    pyFirstField s = String.mk (s.data.takeWhile (fun c => c != '.'))
    ∧ (pyIn "." s = false → pyFirstField s = s)
    ∧ (∀ (cfg : SubmitConfig) (node : NodeModel) (scriptfile : String)
        (p0 : List (String × String)) (l0 : Int),
        submitTaskid (submit_batchtask cfg node scriptfile
            (fun _ => Except.ok { stdout := s, stderr := "" }) p0 l0) =
          some (pyFirstField s)
        ∧ dictLookup (submitPending (submit_batchtask cfg node scriptfile
            (fun _ => Except.ok { stdout := s, stderr := "" }) p0 l0))
            (pyFirstField s) = some node.out_dir) := by
  refine ⟨?_, ?_, ?_⟩
  · unfold pyFirstField
    rw [headD_splitDotL]
  · intro h
    unfold pyFirstField
    rw [headD_splitDotL]
    have hc : containsL ['.'] s.data = false := h
    rw [takeWhile_of_not_contains '.' s.data hc]
  · intro cfg node scriptfile p0 l0
    rw [submit_firstOk]
    exact ⟨rfl, by simp only [submitPending]; exact dictLookup_insert_self _ _ _⟩

/-- Witness for C10 at the dot-free reply `12345`: the whole stdout is
the task id. -/
theorem claim_C10_witness :
    pyIn "." "12345" = false ∧ pyFirstField "12345" = "12345" :=
  ⟨by decide, (claim_C10 "12345").2.1 (by decide)⟩

/-- Counterexample to claim C5: a reply whose stdout is empty (no
parsable task id) does not make `_submit_batchtask` raise; the call
returns normally and the empty string is registered as a key. -/
theorem claim_C5_counterexample :
    submitIsErr (submit_batchtask cfgEx nodeEx scriptEx attemptEmpty [] 30) = false
    ∧ dictLookup (submitPending (submit_batchtask cfgEx nodeEx scriptEx attemptEmpty [] 30)) ""
        = some "/out/node1" := by
  constructor
  · decide
  · decide

/-- Claim C5 as amended: on a malformed scheduler reply
`_submit_batchtask` does not propagate an error; it silently registers
the — possibly empty — segment of stdout before the first dot as a key
in the pending registry and returns it as the task id. -/
theorem claim_C5 (cfg : SubmitConfig) (node : NodeModel) (scriptfile : String)
    (p0 : List (String × String)) (l0 : Int) (stdout stderr : String) :
    submit_batchtask cfg node scriptfile
        (fun _ => Except.ok { stdout := stdout, stderr := stderr }) p0 l0 =
      Except.ok
        { taskid := pyFirstField stdout,
          pending := dictInsert p0 (pyFirstField stdout) node.out_dir,
          level := l0, sleeps := [], execs := 1,
          jobname := buildJobName cfg.logname node.hierarchy node.node_id cfg.max_jobname_len,
          qsubargs := mergedQsubArgs cfg.qsub_args node.plugin_qsub_args
            node.plugin_overwrite (pyDirname scriptfile) } :=
  submit_firstOk cfg node scriptfile p0 l0 stdout stderr

/-- Claim C6: a registry entry is inserted exactly when
`_submit_batchtask` returns successfully — the returned task id is then
mapped to the node's output directory and no other key changes — and
when the call raises, the registry is exactly the one before the call. -/
theorem claim_C6 (cfg : SubmitConfig) (node : NodeModel) (scriptfile : String)
    (attempt : Nat → Except String CmdResult)
    (p0 : List (String × String)) (l0 : Int) :
    (∀ o : SubmitOk, submit_batchtask cfg node scriptfile attempt p0 l0 = Except.ok o →
      dictLookup o.pending o.taskid = some node.out_dir
      ∧ ∀ k : String, k ≠ o.taskid → dictLookup o.pending k = dictLookup p0 k)
    ∧ (∀ f : SubmitFail, submit_batchtask cfg node scriptfile attempt p0 l0 = Except.error f →
      f.pending = p0) := by
  unfold submit_batchtask
  cases hl : loopGo attempt cfg.retry_timeout cfg.max_tries 0 [] 0 with
  | error x =>
    obtain ⟨e, sleeps, execs⟩ := x
    constructor
    · intro o ho
      dsimp only at ho
      simp at ho
    · intro f hf
      dsimp only at hf
      simp only [Except.error.injEq] at hf
      rw [← hf]
  | ok x =>
    obtain ⟨r, sleeps, execs⟩ := x
    constructor
    · intro o ho
      dsimp only at ho
      simp only [Except.ok.injEq] at ho
      rw [← ho]
      exact ⟨dictLookup_insert_self p0 (pyFirstField r.stdout) node.out_dir,
        fun k hk => dictLookup_insert_ne p0 (pyFirstField r.stdout) node.out_dir k hk⟩
    · intro f hf
      dsimp only at hf
      simp at hf

/-- Witness for C6: a successful default-configuration submission whose
reply is `9001.master` registers `9001 ↦ /out/node1`. -/
theorem claim_C6_witness :
    dictLookup (dictInsert [] "9001" "/out/node1") "9001" = some "/out/node1" :=
  ((claim_C6 cfgEx nodeEx scriptEx attemptOk [] 30).1
    { taskid := "9001", pending := dictInsert [] "9001" "/out/node1",
      level := 30, sleeps := [], execs := 1,
      jobname := "node1.branch.wf", qsubargs := " -o /wd -e /wd" }
    (by rfl)).1

/-- Claim C8: on every exit path of `_submit_batchtask` — normal return
and raised submission error alike — the interface-logger level is
restored to the value it held before the call. -/
theorem claim_C8 (cfg : SubmitConfig) (node : NodeModel) (scriptfile : String)
    (attempt : Nat → Except String CmdResult)
    (p0 : List (String × String)) (l0 : Int) :
    submitLevel (submit_batchtask cfg node scriptfile attempt p0 l0) = l0 := by
  unfold submit_batchtask
  cases hl : loopGo attempt cfg.retry_timeout cfg.max_tries 0 [] 0 with
  | error x =>
    obtain ⟨e, sleeps, execs⟩ := x
    rfl
  | ok x =>
    obtain ⟨r, sleeps, execs⟩ := x
    rfl

/-- Counterexample to claim C2: with the default `max_tries = 2` and an
always-failing executor, `_submit_batchtask` raises only after three
executions of the submission command, not after two. -/
theorem claim_C2_counterexample :
    submitIsErr (submit_batchtask cfgEx nodeEx scriptEx attemptFail [] 30) = true
    ∧ submitExecs (submit_batchtask cfgEx nodeEx scriptEx attemptFail [] 30) = 3
    ∧ submitExecs (submit_batchtask cfgEx nodeEx scriptEx attemptFail [] 30) ≠ 2 := by
  refine ⟨by decide, by decide, by decide⟩

/-- Claim C2 as amended: if every execution of the submission command
raises, `_submit_batchtask` raises a `RuntimeError` naming the node and
the last underlying error after exactly `max_tries + 1` executions
(three with the default `max_tries = 2`), never more, sleeping
`max_tries` times in between; the registry and logger level are left as
before the call. -/
theorem claim_C2 (cfg : SubmitConfig) (node : NodeModel) (scriptfile : String)
    (attempt : Nat → Except String CmdResult) (emsg : Nat → String)
    (p0 : List (String × String)) (l0 : Int)
    (hf : ∀ i, attempt i = Except.error (emsg i)) :
    submitIsErr (submit_batchtask cfg node scriptfile attempt p0 l0) = true
    ∧ submitExecs (submit_batchtask cfg node scriptfile attempt p0 l0) = cfg.max_tries + 1
    ∧ submitSleeps (submit_batchtask cfg node scriptfile attempt p0 l0) =
        List.replicate cfg.max_tries cfg.retry_timeout
    ∧ submitErrmsg (submit_batchtask cfg node scriptfile attempt p0 l0) =
        some ("Could not submit pbs task for node " ++ node.node_id ++ "\n"
          ++ emsg cfg.max_tries)
    ∧ submitPending (submit_batchtask cfg node scriptfile attempt p0 l0) = p0
    ∧ submitLevel (submit_batchtask cfg node scriptfile attempt p0 l0) = l0 := by
  have h := loopGo_all_fail attempt emsg cfg.retry_timeout hf cfg.max_tries 0 [] 0
  rw [Nat.zero_add, List.nil_append] at h
  unfold submit_batchtask
  rw [h]
  exact ⟨rfl, rfl, rfl, rfl, rfl, rfl⟩

/-- Witness for C2 at the default configuration and an executor that
always raises `boom`: the call raises after exactly three executions. -/
theorem claim_C2_witness :
    submitIsErr (submit_batchtask cfgEx nodeEx scriptEx attemptFail [] 30) = true
    ∧ submitExecs (submit_batchtask cfgEx nodeEx scriptEx attemptFail [] 30) = 3
    ∧ submitSleeps (submit_batchtask cfgEx nodeEx scriptEx attemptFail [] 30) = [2, 2]
    ∧ submitErrmsg (submit_batchtask cfgEx nodeEx scriptEx attemptFail [] 30) =
        some "Could not submit pbs task for node node1\nboom"
    ∧ submitPending (submit_batchtask cfgEx nodeEx scriptEx attemptFail [] 30) = []
    ∧ submitLevel (submit_batchtask cfgEx nodeEx scriptEx attemptFail [] 30) = 30 :=
  claim_C2 cfgEx nodeEx scriptEx attemptFail (fun _ => "boom") [] 30 (fun _ => rfl)

/-- Claim C7: if the executor fails exactly `k` times with
`k < max_tries` and then succeeds, `_submit_batchtask` returns the task
id parsed from the successful reply's stdout, having slept exactly `k`
times for `retry_timeout` and executed the command `k + 1` times. -/
theorem claim_C7 (cfg : SubmitConfig) (node : NodeModel) (scriptfile : String)
    (attempt : Nat → Except String CmdResult)
    (p0 : List (String × String)) (l0 : Int) (k : Nat) (r : CmdResult)
    (hk : k < cfg.max_tries)
    (hfail : ∀ i, i < k → exceptIsOk (attempt i) = false)
    (hok : attempt k = Except.ok r) :
    submitTaskid (submit_batchtask cfg node scriptfile attempt p0 l0) =
        some (pyFirstField r.stdout)
    ∧ submitSleeps (submit_batchtask cfg node scriptfile attempt p0 l0) =
        List.replicate k cfg.retry_timeout
    ∧ submitExecs (submit_batchtask cfg node scriptfile attempt p0 l0) = k + 1
    ∧ submitPending (submit_batchtask cfg node scriptfile attempt p0 l0) =
        dictInsert p0 (pyFirstField r.stdout) node.out_dir
    ∧ submitLevel (submit_batchtask cfg node scriptfile attempt p0 l0) = l0 := by
  have hfail0 : ∀ i, i < k → exceptIsOk (attempt (0 + i)) = false := by
    intro i hi
    rw [Nat.zero_add]
    exact hfail i hi
  have hok0 : attempt (0 + k) = Except.ok r := by rw [Nat.zero_add]; exact hok
  have h := loopGo_ok attempt cfg.retry_timeout r k cfg.max_tries 0 [] 0
    (by omega) hfail0 hok0
  rw [List.nil_append, Nat.zero_add] at h
  unfold submit_batchtask
  rw [h]
  exact ⟨rfl, rfl, rfl, rfl, rfl⟩

/-- Witness for C7 with `k = 1 < max_tries = 2`: one failure, then the
reply `12345.pbs01`; the call returns `12345` after one sleep and two
executions. -/
theorem claim_C7_witness :
    (1 < cfgEx.max_tries
      ∧ exceptIsOk (attempt1Fail 0) = false
      ∧ attempt1Fail 1 = Except.ok { stdout := "12345.pbs01", stderr := "" })
    ∧ submitTaskid (submit_batchtask cfgEx nodeEx scriptEx attempt1Fail [] 30) = some "12345"
    ∧ submitSleeps (submit_batchtask cfgEx nodeEx scriptEx attempt1Fail [] 30) = [2]
    ∧ submitExecs (submit_batchtask cfgEx nodeEx scriptEx attempt1Fail [] 30) = 2
    ∧ submitPending (submit_batchtask cfgEx nodeEx scriptEx attempt1Fail [] 30) =
        [("12345", "/out/node1")]
    ∧ submitLevel (submit_batchtask cfgEx nodeEx scriptEx attempt1Fail [] 30) = 30 :=
  ⟨⟨by decide, by rfl, by rfl⟩,
    claim_C7 cfgEx nodeEx scriptEx attempt1Fail [] 30 1
      { stdout := "12345.pbs01", stderr := "" }
      (by decide)
      (fun i hi => by
        have h0 : i = 0 := by omega
        rw [h0]
        rfl)
      (by rfl)⟩

/-- Claim C3 (refuted, code bug): on a default-configuration submission
of script `/wd/batchscript_node1.sh` both sides of the unresolved merge
conflict build a command line that starts with `echo`, not with the
scheduler's submit binary; the HEAD side pipes an echoed python
invocation into qsub and never passes the script path. -/
theorem claim_C3 :
    cmdline_merged scriptEx (mergedQsubArgs "" none false (pyDirname scriptEx))
        (buildJobName "alice" "wf.branch" "node1" 15) =
      "echo  -o /wd -e /wd -N node1.branch.wf /wd/batchscript_node1.sh"
    ∧ cmdline_head scriptEx (mergedQsubArgs "" none false (pyDirname scriptEx))
        (buildJobName "alice" "wf.branch" "node1" 15) =
      "echo  \"/home/predatt/giaald/.conda/envs/giacomo/bin/python /wd/node1.py\" | qsub  -o /wd -e /wd -N node1.branch.wf"
    ∧ startsWithS (cmdline_merged scriptEx (mergedQsubArgs "" none false (pyDirname scriptEx))
        (buildJobName "alice" "wf.branch" "node1" 15)) "qsub" = false
    ∧ startsWithS (cmdline_head scriptEx (mergedQsubArgs "" none false (pyDirname scriptEx))
        (buildJobName "alice" "wf.branch" "node1" 15)) "qsub" = false
    ∧ pyIn scriptEx (cmdline_head scriptEx (mergedQsubArgs "" none false (pyDirname scriptEx))
        (buildJobName "alice" "wf.branch" "node1" 15)) = false := by
  refine ⟨by decide, by decide, by decide, by decide, by decide⟩
